import Mathlib

/-!
Verification of `Data_Collector/Log_Reg_Classifier.py`.

The script builds a binary text classifier (depression vs. non-depression)
from two directories of plain-text files: it loads and labels the corpus
(`construct_data` / `process_post`), vectorizes the texts two ways
(`make_count_vectors`, `make_tfidf_vectors`), and evaluates a logistic
regression classifier with stratified k-fold cross-validation
(`train_lr_model`, `evaluate`, `classify_kfold`).

The embedding below is shallow:
* a file's content is a list of lines (`List String`); the filesystem is a
  function from paths to line lists;
* the per-line `decode('unicode-escape').encode('utf-8')` normalization is
  text decoding, declared out of scope by the specification, and is modelled
  as the identity on already-decoded text;
* `random.shuffle` is modelled by quantifying over an arbitrary permutation
  of the concatenated filename list;
* the scikit-learn internals (vectorizer vocabulary discovery, the logistic
  regression solver, the stratified splitter) are external library code not
  present in this repository; where a claim depends on them they are
  modelled from the specification's contract, and that is noted on the
  definition;
* numeric scores are rationals (`ℚ`) instead of floating point.
-/

namespace LogRegClassifier

/-! ### Configuration constants (module-level constants of the script) -/

/-- analyzer parameter (`'word'` for word tokens, `'char_wb'` for character tokens). -/
def ANALYZER : String := "word"

/-- The max for the n-gram range. -/
def NGRAM_MAX : Nat := 3

/-- Logistic Regression penalty. -/
def PENALTY : String := "l1"

/-- number of K-fold splits. -/
def KFOLD_SPLITS : Nat := 10

/-- the average parameter for the precision/recall evaluator. -/
def EVAL_AVERAGE : String := "binary"

/-! ### `process_post` -/

/-- Python's `str.strip()`: the string with leading and trailing whitespace
characters removed.  (Defined by structural recursion over the character
list so that concrete inputs evaluate inside the kernel.) -/
def py_strip (s : String) : String :=
  ⟨((s.data.dropWhile Char.isWhitespace).reverse.dropWhile Char.isWhitespace).reverse⟩

/-- Model of `process_post`: reads a file and extracts the raw text.  The file is given
as its list of lines.  The loop keeps the lines that are non-empty after
stripping, and appends each stripped line followed by a single space to the
accumulated text.  (The `unicode-escape` decode step is modelled as the
identity; text decoding is out of scope.) -/
def process_post (file_lines : List String) : String :=
  file_lines.foldl
    (fun text line => if py_strip line ≠ "" then text ++ py_strip line ++ " " else text) ""

/-! ### `construct_data` -/

/-- Path joining, `os.path.join dir fn`, for a simple relative filename. -/
def path_join (dir fn : String) : String := dir ++ "/" ++ fn

/-- The data bunch built by `construct_data`: shuffled file names, file paths,
raw texts and target labels, as parallel lists. -/
structure DataBunch where
  filenames : List String
  filepath : List String
  data : List String
  target : List Nat
  deriving Repr, DecidableEq

/-- The loop body of `construct_data`, iterated over the shuffled filename
list: each filename found in `dep_fnames` is labelled `0` and resolved inside
`dep_dir`; every other filename is labelled `1` and resolved inside
`non_dep_dir`; the file at the resolved path is then read and processed.
Returns the `(filepath, data, target)` triple of parallel lists. -/
def construct_records (fs : String → List String) (dep_fnames : List String)
    (dep_dir non_dep_dir : String) :
    List String → List String × List String × List Nat
  | [] => ([], [], [])
  | fn :: rest =>
      let entry : String × Nat :=
        if fn ∈ dep_fnames then (path_join dep_dir fn, 0)
        else (path_join non_dep_dir fn, 1)
      let tail := construct_records fs dep_fnames dep_dir non_dep_dir rest
      (entry.1 :: tail.1, process_post (fs entry.1) :: tail.2.1, entry.2 :: tail.2.2)

/-- Model of `construct_data`: constructs the data bunch containing file names, file
paths, raw file texts and targets.  `shuffled` is the result of
`random.shuffle` applied to the concatenation of the two directory listings
(the permutation is a hypothesis of the theorems below). -/
def construct_data (fs : String → List String) (shuffled dep_fnames : List String)
    (dep_dir non_dep_dir : String) : DataBunch :=
  let recs := construct_records fs dep_fnames dep_dir non_dep_dir shuffled
  { filenames := shuffled
    filepath := recs.1
    data := recs.2.1
    target := recs.2.2 }

/-! ### Component lemmas for `construct_data` -/

theorem construct_records_fst (fs : String → List String) (dep_fnames : List String)
    (dep_dir non_dep_dir : String) (l : List String) :
    (construct_records fs dep_fnames dep_dir non_dep_dir l).1 =
      l.map (fun fn => if fn ∈ dep_fnames then path_join dep_dir fn
                       else path_join non_dep_dir fn) := by
  induction l with
  | nil => rfl
  | cons fn rest ih =>
      simp only [construct_records, List.map_cons, ih]
      by_cases h : fn ∈ dep_fnames <;> simp [h]

theorem construct_records_target (fs : String → List String) (dep_fnames : List String)
    (dep_dir non_dep_dir : String) (l : List String) :
    (construct_records fs dep_fnames dep_dir non_dep_dir l).2.2 =
      l.map (fun fn => if fn ∈ dep_fnames then 0 else 1) := by
  induction l with
  | nil => rfl
  | cons fn rest ih =>
      simp only [construct_records, List.map_cons, ih]
      by_cases h : fn ∈ dep_fnames <;> simp [h]

theorem construct_records_data (fs : String → List String) (dep_fnames : List String)
    (dep_dir non_dep_dir : String) (l : List String) :
    (construct_records fs dep_fnames dep_dir non_dep_dir l).2.1 =
      l.map (fun fn =>
        process_post (fs (if fn ∈ dep_fnames then path_join dep_dir fn
                          else path_join non_dep_dir fn))) := by
  induction l with
  | nil => rfl
  | cons fn rest ih =>
      simp only [construct_records, List.map_cons, ih]
      by_cases h : fn ∈ dep_fnames <;> simp [h]

theorem construct_data_target (fs : String → List String) (shuffled dep_fnames : List String)
    (dep_dir non_dep_dir : String) :
    (construct_data fs shuffled dep_fnames dep_dir non_dep_dir).target =
      shuffled.map (fun fn => if fn ∈ dep_fnames then 0 else 1) := by
  simp [construct_data, construct_records_target]

theorem construct_data_filepath (fs : String → List String) (shuffled dep_fnames : List String)
    (dep_dir non_dep_dir : String) :
    (construct_data fs shuffled dep_fnames dep_dir non_dep_dir).filepath =
      shuffled.map (fun fn => if fn ∈ dep_fnames then path_join dep_dir fn
                              else path_join non_dep_dir fn) := by
  simp [construct_data, construct_records_fst]

theorem construct_data_data (fs : String → List String) (shuffled dep_fnames : List String)
    (dep_dir non_dep_dir : String) :
    (construct_data fs shuffled dep_fnames dep_dir non_dep_dir).data =
      shuffled.map (fun fn =>
        process_post (fs (if fn ∈ dep_fnames then path_join dep_dir fn
                          else path_join non_dep_dir fn))) := by
  simp [construct_data, construct_records_data]

/-! ### Vectorizers (`make_count_vectors`, `make_tfidf_vectors`)

`CountVectorizer` and `TfidfVectorizer` are scikit-learn library code, not
part of this repository; the specification treats their internals as out of
scope but fixes their contract: n-gram tokenization from unigrams up to a
configured maximum order, at word or character granularity, with the
vocabulary fit once over the whole corpus, one matrix row per text and one
column per discovered vocabulary entry. -/

/-- The configuration both vectorizer constructors receive:
`ngram_range=(1, NGRAM_MAX)`, `analyzer=ANALYZER`. -/
structure VectorizerConfig where
  ngram_min : Nat
  ngram_max : Nat
  analyzer : String
  deriving Repr, DecidableEq

/-- Modelled from the spec: tokenization at the configured granularity —
word tokens for the `"word"` analyzer, single-character tokens otherwise. -/
def tokenize (analyzer : String) (text : String) : List String :=
  if analyzer = "word" then
    (text.split Char.isWhitespace).filter (fun w => w ≠ "")
  else
    text.toList.map (fun c => String.mk [c])

/-- Modelled from the spec: the contiguous n-grams of length `n` of a token
list (an n-gram is a contiguous sequence of N tokens). -/
def ngrams_of (n : Nat) (toks : List String) : List (List String) :=
  if n = 0 then []
  else (List.range (toks.length + 1 - n)).map (fun i => (toks.drop i).take n)

/-- Modelled from the spec: all n-grams of a token list with lengths from
`ngram_min` up to `ngram_max`. -/
def all_ngrams (cfg : VectorizerConfig) (toks : List String) : List (List String) :=
  ((List.range (cfg.ngram_max + 1 - cfg.ngram_min)).map (cfg.ngram_min + ·)).flatMap
    (fun n => ngrams_of n toks)

/-- Modelled from the spec: the vocabulary discovered by `fit_transform` —
the distinct n-grams occurring anywhere in the corpus, fit once over the
entire corpus (not per fold). -/
def vocabulary (cfg : VectorizerConfig) (raw_data : List String) : List (List String) :=
  (raw_data.flatMap (fun doc => all_ngrams cfg (tokenize cfg.analyzer doc))).dedup

/-- Modelled from the spec: the number of occurrences of the n-gram `g` in a
document, at the configured granularity. -/
def ngram_count (cfg : VectorizerConfig) (g : List String) (doc : String) : Nat :=
  (all_ngrams cfg (tokenize cfg.analyzer doc)).count g

/-- Modelled from the spec: the number of corpus documents containing the
n-gram `g` (document frequency, the input to inverse-document-frequency
weighting). -/
def doc_freq (cfg : VectorizerConfig) (g : List String) (raw_data : List String) : Nat :=
  raw_data.countP (fun doc => 0 < ngram_count cfg g doc)

/-- Modelled from the spec: `CountVectorizer(...).fit_transform(raw_data)` —
one row per document, one column per vocabulary n-gram, holding raw
occurrence counts. -/
def count_fit_transform (cfg : VectorizerConfig) (raw_data : List String) :
    List (List ℚ) :=
  let vocab := vocabulary cfg raw_data
  raw_data.map (fun doc => vocab.map (fun g => (ngram_count cfg g doc : ℚ)))

/-- Modelled from the spec: `TfidfVectorizer(...).fit_transform(raw_data)` —
the same vocabulary discovery as the count vectorizer, with each entry the
term count discounted by how common the term is across the corpus.  The
exact library weight formula involves a real logarithm; it is modelled by a
rational surrogate weight `count * (1 + |corpus|) / (1 + docfreq)`; only the
matrix shape and the shared vocabulary discovery are specified. -/
def tfidf_fit_transform (cfg : VectorizerConfig) (raw_data : List String) :
    List (List ℚ) :=
  let vocab := vocabulary cfg raw_data
  raw_data.map (fun doc =>
    vocab.map (fun g =>
      (ngram_count cfg g doc : ℚ) *
        ((1 + raw_data.length : ℚ) / (1 + doc_freq cfg g raw_data))))

/-- Model of `make_count_vectors`: transforms text data into count vectors, using a
`CountVectorizer(ngram_range=(1, NGRAM_MAX), analyzer=ANALYZER)`. -/
def make_count_vectors (raw_data : List String) : List (List ℚ) :=
  count_fit_transform { ngram_min := 1, ngram_max := NGRAM_MAX, analyzer := ANALYZER }
    raw_data

/-- Model of `make_tfidf_vectors`: transforms text data into tf-idf vectors, using a
`TfidfVectorizer(ngram_range=(1, NGRAM_MAX), analyzer=ANALYZER)`. -/
def make_tfidf_vectors (raw_data : List String) : List (List ℚ) :=
  tfidf_fit_transform { ngram_min := 1, ngram_max := NGRAM_MAX, analyzer := ANALYZER }
    raw_data

/-! ### `train_lr_model` and `evaluate` -/

/-- The configuration the `LogisticRegression` constructor receives. -/
structure LRConfig where
  penalty : String
  class_weight : String
  deriving Repr, DecidableEq

/-- What `evaluate` observes of a fitted scikit-learn classifier: a class
prediction and a positive-class predicted probability for each sample row. -/
structure Classifier where
  predict : List ℚ → Nat
  predict_proba : List ℚ → ℚ

/-- The type of the library solver `LogisticRegression(...).fit`: external
library code, modelled as an arbitrary deterministic function of the
configuration and the training data (the spec treats the solver as an opaque
atomic step). -/
def FitFn : Type := LRConfig → List (List ℚ) → List Nat → Classifier

/-- The model `train_lr_model` returns: the fitted classifier together with
the configuration it was constructed with. -/
structure LRModel where
  config : LRConfig
  clf : Classifier

/-- Model of `train_lr_model`: defines the logistic regression classifier model
`LogisticRegression(penalty=PENALTY, class_weight='balanced')` and fits the
given training data to it.  The solver `fit` is a parameter (library code). -/
def train_lr_model (fit : FitFn) (x_train : List (List ℚ)) (y_train : List Nat) :
    LRModel :=
  let cfg : LRConfig := { penalty := PENALTY, class_weight := "balanced" }
  { config := cfg, clf := fit cfg x_train y_train }

/-- Modelled from the spec: `model.score(x_test, y_test)` — classification
accuracy, the fraction of samples whose predicted class equals the label. -/
def accuracy_score (y_pred y_true : List Nat) : ℚ :=
  (((y_pred.zip y_true).countP (fun p => p.1 == p.2) : ℚ)) / (y_true.length : ℚ)

/-- Modelled from the spec: `roc_auc_score` — the area under the ROC curve
for the positive-class scores, in its Mann-Whitney form: the fraction of
(positive, negative) sample pairs ranked correctly, ties counting half. -/
def roc_auc_score (y_true : List Nat) (y_score : List ℚ) : ℚ :=
  let pairs := y_true.zip y_score
  let pos := (pairs.filter (fun p => p.1 == 1)).map Prod.snd
  let neg := (pairs.filter (fun p => p.1 != 1)).map Prod.snd
  (pos.flatMap (fun sp => neg.map (fun sn =>
      if sn < sp then (1 : ℚ) else if sn = sp then 1 / 2 else 0))).sum /
    ((pos.length : ℚ) * (neg.length : ℚ))

/-- Modelled from the spec: `precision_recall_fscore_support` with
`average="binary"` — precision, recall, F-score and support computed against
the positive class (label `1`) only. -/
def prf_evaluator (y_true y_pred : List Nat) : ℚ × ℚ × ℚ × Nat :=
  let pairs := y_true.zip y_pred
  let tp := pairs.countP (fun p => p.1 == 1 && p.2 == 1)
  let fp := pairs.countP (fun p => p.1 != 1 && p.2 == 1)
  let fmiss := pairs.countP (fun p => p.1 == 1 && p.2 != 1)
  let prec : ℚ := if tp + fp = 0 then 0 else (tp : ℚ) / ((tp : ℚ) + (fp : ℚ))
  let rec_ : ℚ := if tp + fmiss = 0 then 0 else (tp : ℚ) / ((tp : ℚ) + (fmiss : ℚ))
  let fsc : ℚ := if prec + rec_ = 0 then 0 else 2 * prec * rec_ / (prec + rec_)
  (prec, rec_, fsc, y_true.count 1)

/-- The per-fold evaluation bunch `evaluate` returns. -/
structure FoldEval where
  cv : ℚ
  roc : ℚ
  precision : ℚ
  «recall» : ℚ
  fscore : ℚ
  supp : Nat
  deriving Repr, DecidableEq

/-- Model of `evaluate`: calculates the fold's accuracy (`model.score`), ROC-AUC from
the positive-class predicted probabilities, and precision/recall/F-score and
support under the configured averaging. -/
def evaluate (model : LRModel) (x_test : List (List ℚ)) (y_test : List Nat) :
    FoldEval :=
  let cv := accuracy_score (x_test.map model.clf.predict) y_test
  let y_pred_lr := x_test.map model.clf.predict_proba
  let roc := roc_auc_score y_test y_pred_lr
  let prfs := prf_evaluator y_test (x_test.map model.clf.predict)
  { cv := cv, roc := roc, precision := prfs.1, «recall» := prfs.2.1,
    fscore := prfs.2.2.1, supp := prfs.2.2.2 }

/-! ### `classify_kfold` -/

/-- A fold: the `(train_indices, test_indices)` pair yielded by
`skf.split`. -/
def Fold : Type := List Nat × List Nat

/-- Modelled from the spec:
`StratifiedKFold(n_splits=KFOLD_SPLITS, shuffle=True).split(x, y)` is library
code; its unseeded shuffle is modelled by the `mk_folds` oracle that produces
the label-stratified fold assignment.  Per the spec's error contract, a label
set with fewer than two distinct classes cannot be stratified, and a class
with fewer members than the fold count is infeasible: both are configuration
errors raised before any fold training is attempted. -/
def stratified_split (mk_folds : List Nat → List Fold) (n_splits : Nat)
    (y : List Nat) : Except String (List Fold) :=
  if y.dedup.length < 2 then
    .error "cannot stratify a single-class label set"
  else if y.dedup.any (fun c => y.count c < n_splits) then
    .error "n_splits cannot be greater than the number of members in each class"
  else
    .ok (mk_folds y)

/-- Fancy indexing `xs[indices]`: the elements of `xs` at the given index
list, in index order. -/
def select {α : Type} (xs : List α) (indices : List Nat) : List α :=
  indices.filterMap (fun i => xs.get? i)

/-- One iteration of the `classify_kfold` loop: generate the train/test
batches from the fold's indices, fit the logistic regression model on the
training batch, and evaluate it on the test batch. -/
def fold_eval (fit : FitFn) (x : List (List ℚ)) (y : List Nat) (f : Fold) :
    FoldEval :=
  let x_train := select x f.1
  let x_test := select x f.2
  let y_train := select y f.1
  let y_test := select y f.2
  let lr_model := train_lr_model fit x_train y_train
  evaluate lr_model x_test y_test

/-- The evaluation bunch `classify_kfold` returns: per-fold
precision/recall/F-score lists plus the mean accuracy (`cv`) and mean
ROC-AUC (`roc`). -/
structure Evaluation where
  precision : List ℚ
  «recall» : List ℚ
  fscore : List ℚ
  cv : ℚ
  roc : ℚ
  deriving Repr, DecidableEq

/-- Mean of a list of scores, `np.mean`. -/
def np_mean (l : List ℚ) : ℚ := l.sum / (l.length : ℚ)

/-- The `classify_kfold` loop over the folds, accumulating in iteration
order the `cv_mean` and `roc_mean` lists and the evaluation bunch's
`precision`, `recall` and `fscore` lists (one append per fold). -/
def classify_loop (fit : FitFn) (x : List (List ℚ)) (y : List Nat) :
    List Fold → List ℚ × List ℚ × List ℚ × List ℚ × List ℚ
  | [] => ([], [], [], [], [])
  | f :: rest =>
      let fold_ev := fold_eval fit x y f
      let tail := classify_loop fit x y rest
      (fold_ev.cv :: tail.1, fold_ev.roc :: tail.2.1,
       fold_ev.precision :: tail.2.2.1, fold_ev.«recall» :: tail.2.2.2.1,
       fold_ev.fscore :: tail.2.2.2.2)

/-- Model of `classify_kfold`: splits the data into `KFOLD_SPLITS` stratified folds,
trains and evaluates a logistic regression classifier on each fold, and
returns the evaluation bunch with the per-fold metric lists and the means of
the two accuracies.  A stratification error propagates: the function body
contains no handler for it. -/
def classify_kfold (fit : FitFn) (mk_folds : List Nat → List Fold)
    (x : List (List ℚ)) (y : List Nat) : Except String Evaluation :=
  match stratified_split mk_folds KFOLD_SPLITS y with
  | .error e => .error e
  | .ok folds =>
      let acc := classify_loop fit x y folds
      .ok { precision := acc.2.2.1, «recall» := acc.2.2.2.1, fscore := acc.2.2.2.2,
            cv := np_mean acc.1, roc := np_mean acc.2.1 }

/-! ### Component lemmas for `classify_loop` -/

theorem classify_loop_eq (fit : FitFn) (x : List (List ℚ)) (y : List Nat)
    (folds : List Fold) :
    classify_loop fit x y folds =
      (folds.map (fun f => (fold_eval fit x y f).cv),
       folds.map (fun f => (fold_eval fit x y f).roc),
       folds.map (fun f => (fold_eval fit x y f).precision),
       folds.map (fun f => (fold_eval fit x y f).«recall»),
       folds.map (fun f => (fold_eval fit x y f).fscore)) := by
  induction folds with
  | nil => rfl
  | cons f rest ih => simp [classify_loop, ih]

/-! ### Helper lemmas about `process_post` -/

theorem process_post_foldl (acc : String) (file_lines : List String) :
    file_lines.foldl
        (fun text line => if py_strip line ≠ "" then text ++ py_strip line ++ " " else text) acc =
      acc ++ process_post file_lines := by
  induction file_lines generalizing acc with
  | nil => simp [process_post]
  | cons l ls ih =>
      by_cases h : py_strip l = ""
      · simp only [process_post, List.foldl_cons, h, ne_eq, not_true_eq_false, if_false,
          ite_false]
        exact ih acc
      · simp only [process_post, List.foldl_cons, h, ne_eq, not_false_eq_true, if_true,
          ite_true]
        rw [ih, ih ("" ++ py_strip l ++ " ")]
        simp [String.append_assoc]

theorem process_post_cons (l : String) (ls : List String) :
    process_post (l :: ls) =
      (if py_strip l ≠ "" then py_strip l ++ " " else "") ++ process_post ls := by
  have h1 : process_post (l :: ls) =
      List.foldl
        (fun text line => if py_strip line ≠ "" then text ++ py_strip line ++ " " else text)
        (if py_strip l ≠ "" then "" ++ py_strip l ++ " " else "") ls := rfl
  rw [h1, process_post_foldl]
  by_cases h : py_strip l = ""
  · rw [if_neg (not_not_intro h), if_neg (not_not_intro h)]
  · rw [if_pos h, if_pos h, String.empty_append]

theorem process_post_all_blank (file_lines : List String)
    (h : ∀ l ∈ file_lines, py_strip l = "") : process_post file_lines = "" := by
  induction file_lines with
  | nil => rfl
  | cons l ls ih =>
      rw [process_post_cons]
      have hl : py_strip l = "" := h l (by simp)
      simp only [hl, ne_eq, not_true_eq_false, if_false, ite_false]
      rw [ih (fun x hx => h x (by simp [hx]))]
      simp

/-! ### Helper lemmas about `String.intercalate` -/

theorem intercalate_go_append (s : String) (l : List String) :
    ∀ (a b : String), String.intercalate.go (a ++ b) s l =
      a ++ String.intercalate.go b s l := by
  induction l with
  | nil => intro a b; rfl
  | cons x xs ih =>
      intro a b
      show String.intercalate.go (a ++ b ++ s ++ x) s xs =
        a ++ String.intercalate.go (b ++ s ++ x) s xs
      rw [String.append_assoc a b s, String.append_assoc a (b ++ s) x]
      exact ih a ((b ++ s) ++ x)

theorem intercalate_cons_cons (s a b : String) (l : List String) :
    String.intercalate s (a :: b :: l) = a ++ s ++ String.intercalate s (b :: l) := by
  show String.intercalate.go a s (b :: l) = a ++ s ++ String.intercalate.go b s l
  show String.intercalate.go (a ++ s ++ b) s l = a ++ s ++ String.intercalate.go b s l
  rw [intercalate_go_append s l (a ++ s) b]

/-- C3, corrected: `process_post` appends a separating space after *every*
kept line, so on a file with a single non-blank line `"hello"` the result is
`"hello "`, not the plain space-join `"hello"` the claim states. -/
theorem process_post_trailing_space_counterexample :
    process_post ["hello"] = "hello " ∧
    process_post ["hello"] ≠
      String.intercalate " "
        (((["hello"] : List String).filter (fun l => py_strip l ≠ "")).map py_strip) := by
  constructor
  · rfl
  · intro h
    have : ("hello " : String) = "hello" := h
    simp at this

/-- C3 (amended): for every input file, `process_post` returns the stripped
non-blank lines joined by single separating spaces, with one trailing space
appended whenever at least one non-blank line exists. -/
theorem process_post_space_separated (file_lines : List String) :
    process_post file_lines =
      if (file_lines.filter (fun l => py_strip l ≠ "")).map py_strip = [] then ""
      else String.intercalate " "
             ((file_lines.filter (fun l => py_strip l ≠ "")).map py_strip) ++ " " := by
  induction file_lines with
  | nil => rfl
  | cons l ls ih =>
      rw [process_post_cons, ih]
      by_cases h : py_strip l = ""
      · have hfil : (l :: ls).filter (fun x => py_strip x ≠ "") =
            ls.filter (fun x => py_strip x ≠ "") :=
          List.filter_cons_of_neg (by simp [h])
        rw [hfil, if_neg (not_not_intro h), String.empty_append]
      · have hfil : (l :: ls).filter (fun x => py_strip x ≠ "") =
            l :: ls.filter (fun x => py_strip x ≠ "") :=
          List.filter_cons_of_pos (by simp [h])
        rw [hfil, if_pos h, List.map_cons]
        rcases hnb : (ls.filter (fun x => py_strip x ≠ "")).map py_strip with _ | ⟨b, bs⟩
        · rw [if_pos rfl, if_neg (List.cons_ne_nil _ _), String.append_empty]
          rfl
        · rw [if_neg (List.cons_ne_nil _ _), if_neg (List.cons_ne_nil _ _),
            intercalate_cons_cons]
          simp [String.append_assoc]

/-- C10: a file whose lines are all blank yields the empty string from
`process_post`, and `construct_data` still includes it: the record at that
position exists with empty text, and the record count stays the full
filename count. -/
theorem construct_data_blank_file_empty_record (fs : String → List String)
    (shuffled dep_fnames : List String) (dep_dir non_dep_dir : String)
    (i : Nat) (p : String)
    (hp : (construct_data fs shuffled dep_fnames dep_dir non_dep_dir).filepath[i]? = some p)
    (hblank : ∀ line ∈ fs p, py_strip line = "") :
    (construct_data fs shuffled dep_fnames dep_dir non_dep_dir).data[i]? = some "" ∧
    (construct_data fs shuffled dep_fnames dep_dir non_dep_dir).data.length =
      shuffled.length := by
  rw [construct_data_filepath] at hp
  rw [construct_data_data]
  rw [List.getElem?_map] at hp ⊢
  constructor
  · rcases hfn : shuffled[i]? with _ | fn
    · rw [hfn] at hp; simp at hp
    · rw [hfn] at hp
      simp only [Option.map_some', Option.some.injEq] at hp ⊢
      rw [hp]
      exact process_post_all_blank (fs p) hblank
  · simp

/-- C10 witness: a one-file corpus whose file consists of an empty line and a
whitespace line. -/
theorem construct_data_blank_file_empty_record_witness :
    (construct_data (fun _ => ["", "  "]) ["a"] ["a"] "d" "n").filepath[0]? =
      some "d/a" ∧
    (∀ line ∈ (fun (_ : String) => ["", "  "]) "d/a", py_strip line = "") ∧
    ((construct_data (fun _ => ["", "  "]) ["a"] ["a"] "d" "n").data[0]? = some "" ∧
     (construct_data (fun _ => ["", "  "]) ["a"] ["a"] "d" "n").data.length =
       (["a"] : List String).length) :=
  ⟨by decide, by decide,
    construct_data_blank_file_empty_record (fun _ => ["", "  "]) ["a"] ["a"] "d" "n"
      0 "d/a" (by decide) (by decide)⟩

/-- C6: for every valid input pair (the shuffled list being a permutation of
the two listings' concatenation), texts and labels have the same length,
equal to the total file count across both directories, and every label is
exactly 0 or 1. -/
theorem construct_data_invariants (fs : String → List String)
    (shuffled dep_fnames non_dep_fnames : List String) (dep_dir non_dep_dir : String)
    (hperm : shuffled.Perm (dep_fnames ++ non_dep_fnames)) :
    (construct_data fs shuffled dep_fnames dep_dir non_dep_dir).data.length =
        dep_fnames.length + non_dep_fnames.length ∧
    (construct_data fs shuffled dep_fnames dep_dir non_dep_dir).target.length =
        dep_fnames.length + non_dep_fnames.length ∧
    ∀ t ∈ (construct_data fs shuffled dep_fnames dep_dir non_dep_dir).target,
      t = 0 ∨ t = 1 := by
  have hlen : shuffled.length = dep_fnames.length + non_dep_fnames.length := by
    simpa using hperm.length_eq
  refine ⟨?_, ?_, ?_⟩
  · rw [construct_data_data]; simp [hlen]
  · rw [construct_data_target]; simp [hlen]
  · intro t ht
    rw [construct_data_target] at ht
    rcases List.mem_map.mp ht with ⟨fn, _, hfn⟩
    by_cases h : fn ∈ dep_fnames
    · left; rw [← hfn]; simp [h]
    · right; rw [← hfn]; simp [h]

/-- C6 witness: a two-file corpus, one file per directory. -/
theorem construct_data_invariants_witness :
    List.Perm ["b", "a"] ((["a"] : List String) ++ ["b"]) ∧
    (construct_data (fun _ => ["x"]) ["b", "a"] ["a"] "d" "n").data.length =
        (["a"] : List String).length + (["b"] : List String).length ∧
    (construct_data (fun _ => ["x"]) ["b", "a"] ["a"] "d" "n").target.length =
        (["a"] : List String).length + (["b"] : List String).length ∧
    ∀ t ∈ (construct_data (fun _ => ["x"]) ["b", "a"] ["a"] "d" "n").target,
      t = 0 ∨ t = 1 :=
  ⟨by decide,
    construct_data_invariants (fun _ => ["x"]) ["b", "a"] ["a"] ["b"] "d" "n" (by decide)⟩

theorem count_zero_map_label (dep_fnames l : List String) :
    (l.map (fun fn => if fn ∈ dep_fnames then 0 else 1)).count 0 =
      l.countP (fun fn => decide (fn ∈ dep_fnames)) := by
  induction l with
  | nil => rfl
  | cons a t ih =>
      simp only [List.map_cons, List.count_cons, List.countP_cons, ih]
      by_cases h : a ∈ dep_fnames <;> simp [h]

/-- C1, corrected: when one filename is listed by both directories, the
membership test in `construct_data` labels both of its records 0, so the
count of label-0 records is 2 while the depression directory holds 1 file,
refuting the claimed equality for that input pair. -/
theorem construct_data_duplicate_label_count_counterexample :
    List.Perm ["a", "a"] ((["a"] : List String) ++ ["a"]) ∧
    (construct_data (fun _ => []) ["a", "a"] ["a"] "d" "n").target.count 0 ≠
      (["a"] : List String).length := by
  decide

/-- C1 (amended): provided no filename is listed by both directories, every
record's label is 0 exactly when its filename came from the depression
directory (1 exactly when it came from the non-depression directory), and
the count of label-0 records equals the depression directory's file count. -/
theorem construct_data_labels_match_directories (fs : String → List String)
    (shuffled dep_fnames non_dep_fnames : List String) (dep_dir non_dep_dir : String)
    (hperm : shuffled.Perm (dep_fnames ++ non_dep_fnames))
    (hdisj : ∀ fn ∈ non_dep_fnames, fn ∉ dep_fnames) :
    (∀ (i : Nat) (hi : i < shuffled.length),
      ((construct_data fs shuffled dep_fnames dep_dir non_dep_dir).target[i]? = some 0 ↔
        shuffled[i] ∈ dep_fnames) ∧
      ((construct_data fs shuffled dep_fnames dep_dir non_dep_dir).target[i]? = some 1 ↔
        shuffled[i] ∈ non_dep_fnames)) ∧
    (construct_data fs shuffled dep_fnames dep_dir non_dep_dir).target.count 0 =
      dep_fnames.length := by
  constructor
  · intro i hi
    rw [construct_data_target, List.getElem?_map, List.getElem?_eq_getElem hi,
      Option.map_some']
    by_cases h : shuffled[i] ∈ dep_fnames
    · have hnot : shuffled[i] ∉ non_dep_fnames := fun hc => hdisj _ hc h
      rw [if_pos h]
      constructor
      · simp [h]
      · simp [hnot]
    · have hmem : shuffled[i] ∈ non_dep_fnames := by
        have hin : shuffled[i] ∈ dep_fnames ++ non_dep_fnames :=
          hperm.mem_iff.mp (shuffled.getElem_mem hi)
        rcases List.mem_append.mp hin with hc | hc
        · exact absurd hc h
        · exact hc
      rw [if_neg h]
      constructor
      · simp [h]
      · simp [hmem]
  · rw [construct_data_target, count_zero_map_label,
      hperm.countP_eq, List.countP_append]
    have h1 : dep_fnames.countP (fun fn => decide (fn ∈ dep_fnames)) =
        dep_fnames.length :=
      List.countP_eq_length.mpr (fun a ha => by simp [ha])
    have h2 : non_dep_fnames.countP (fun fn => decide (fn ∈ dep_fnames)) = 0 := by
      rw [List.countP_eq_zero]
      intro a ha
      simp [hdisj a ha]
    rw [h1, h2]
    omega

/-- C1 witness: disjoint one-file listings. -/
theorem construct_data_labels_match_directories_witness :
    List.Perm ["b", "a"] ((["a"] : List String) ++ ["b"]) ∧
    (∀ fn ∈ (["b"] : List String), fn ∉ (["a"] : List String)) ∧
    (∀ (i : Nat) (hi : i < (["b", "a"] : List String).length),
      ((construct_data (fun _ => []) ["b", "a"] ["a"] "d" "n").target[i]? = some 0 ↔
        (["b", "a"] : List String)[i] ∈ (["a"] : List String)) ∧
      ((construct_data (fun _ => []) ["b", "a"] ["a"] "d" "n").target[i]? = some 1 ↔
        (["b", "a"] : List String)[i] ∈ (["b"] : List String))) ∧
    (construct_data (fun _ => []) ["b", "a"] ["a"] "d" "n").target.count 0 =
      (["a"] : List String).length :=
  ⟨by decide, by decide,
    construct_data_labels_match_directories (fun _ => []) ["b", "a"] ["a"] ["b"] "d" "n"
      (by decide) (by decide)⟩

theorem path_join_inj_right (d a b : String) (h : path_join d a = path_join d b) :
    a = b := by
  have hd := congrArg String.data h
  simp only [path_join, String.data_append] at hd
  exact String.ext (List.append_cancel_left hd)

/-- C9: a filename occurring in both listings is always resolved inside the
depression directory: both of its records get label 0 and the path
`dep_dir/fn`, and the non-depression directory's copy of the file is read
from no record (its path appears nowhere in the filepath list).  The
`hnocollide` hypothesis rules out a depression file path textually colliding
with the non-depression copy's path. -/
theorem construct_data_duplicate_resolved_in_dep (fs : String → List String)
    (shuffled dep_fnames non_dep_fnames : List String) (dep_dir non_dep_dir : String)
    (fn : String)
    (hperm : shuffled.Perm (dep_fnames ++ non_dep_fnames))
    (hdep : fn ∈ dep_fnames) (hnon : fn ∈ non_dep_fnames)
    (hnocollide : ∀ g ∈ dep_fnames, path_join dep_dir g ≠ path_join non_dep_dir fn) :
    2 ≤ shuffled.count fn ∧
    (∀ i : Nat, shuffled[i]? = some fn →
      (construct_data fs shuffled dep_fnames dep_dir non_dep_dir).target[i]? = some 0 ∧
      (construct_data fs shuffled dep_fnames dep_dir non_dep_dir).filepath[i]? =
        some (path_join dep_dir fn)) ∧
    path_join non_dep_dir fn ∉
      (construct_data fs shuffled dep_fnames dep_dir non_dep_dir).filepath := by
  refine ⟨?_, ?_, ?_⟩
  · rw [hperm.count_eq, List.count_append]
    have h1 : 0 < dep_fnames.count fn := List.count_pos_iff.mpr hdep
    have h2 : 0 < non_dep_fnames.count fn := List.count_pos_iff.mpr hnon
    omega
  · intro i hi
    constructor
    · rw [construct_data_target, List.getElem?_map, hi, Option.map_some', if_pos hdep]
    · rw [construct_data_filepath, List.getElem?_map, hi, Option.map_some', if_pos hdep]
  · rw [construct_data_filepath]
    intro hmem
    rcases List.mem_map.mp hmem with ⟨g, hg, hgeq⟩
    by_cases h : g ∈ dep_fnames
    · rw [if_pos h] at hgeq
      exact hnocollide g h hgeq
    · rw [if_neg h] at hgeq
      have hgfn : g = fn := path_join_inj_right _ _ _ hgeq
      exact h (hgfn ▸ hdep)

/-- C9 witness: the filename `"a"` listed by both directories. -/
theorem construct_data_duplicate_resolved_in_dep_witness :
    List.Perm ["a", "a"] ((["a"] : List String) ++ ["a"]) ∧
    "a" ∈ (["a"] : List String) ∧
    (∀ g ∈ (["a"] : List String), path_join "d" g ≠ path_join "n" "a") ∧
    2 ≤ (["a", "a"] : List String).count "a" ∧
    (∀ i : Nat, (["a", "a"] : List String)[i]? = some "a" →
      (construct_data (fun _ => []) ["a", "a"] ["a"] "d" "n").target[i]? = some 0 ∧
      (construct_data (fun _ => []) ["a", "a"] ["a"] "d" "n").filepath[i]? =
        some (path_join "d" "a")) ∧
    path_join "n" "a" ∉
      (construct_data (fun _ => []) ["a", "a"] ["a"] "d" "n").filepath :=
  ⟨by decide, by decide, by decide,
    construct_data_duplicate_resolved_in_dep (fun _ => []) ["a", "a"] ["a"] ["a"] "d" "n" "a"
      (by decide) (by decide) (by decide) (by decide)⟩

theorem dedup_length_lt_two (l : List Nat) (h : ∀ x ∈ l, x = 1) :
    l.dedup.length < 2 := by
  induction l with
  | nil => simp
  | cons a t ih =>
      by_cases hm : a ∈ t
      · rw [List.dedup_cons_of_mem hm]
        exact ih (fun x hx => h x (by simp [hx]))
      · match t with
        | [] => simp
        | b :: bs =>
            exfalso
            have ha : a = 1 := h a (by simp)
            have hb : b = 1 := h b (by simp)
            have hab : a = b := by rw [ha, hb]
            exact hm (by rw [hab]; exact List.mem_cons_self b bs)

/-- C2: with an empty depression directory (and a non-empty non-depression
directory) every record is labelled 1, so the label set has a single class;
stratification then fails with a configuration error before any fold is
formed, and `classify_kfold` propagates that error unchanged — for every
solver, so no fold's classifier training can influence or absorb it. -/
theorem classify_kfold_single_class_error (fit : FitFn)
    (mk_folds : List Nat → List Fold) (fs : String → List String)
    (x : List (List ℚ)) (shuffled non_dep_fnames : List String)
    (dep_dir non_dep_dir : String)
    (hperm : shuffled.Perm (([] : List String) ++ non_dep_fnames))
    (hne : non_dep_fnames ≠ []) :
    stratified_split mk_folds KFOLD_SPLITS
        (construct_data fs shuffled [] dep_dir non_dep_dir).target =
      Except.error "cannot stratify a single-class label set" ∧
    classify_kfold fit mk_folds x
        (construct_data fs shuffled [] dep_dir non_dep_dir).target =
      Except.error "cannot stratify a single-class label set" := by
  have hall : ∀ t ∈ (construct_data fs shuffled [] dep_dir non_dep_dir).target,
      t = 1 := by
    rw [construct_data_target]
    intro t ht
    rcases List.mem_map.mp ht with ⟨fn, _, hfn⟩
    simpa using hfn.symm
  have hsplit : stratified_split mk_folds KFOLD_SPLITS
      (construct_data fs shuffled [] dep_dir non_dep_dir).target =
      Except.error "cannot stratify a single-class label set" := by
    unfold stratified_split
    rw [if_pos (dedup_length_lt_two _ hall)]
  exact ⟨hsplit, by simp only [classify_kfold, hsplit]⟩

/-- C2 witness: one non-depression file, no depression files. -/
theorem classify_kfold_single_class_error_witness :
    List.Perm ["f"] (([] : List String) ++ ["f"]) ∧
    (["f"] : List String) ≠ [] ∧
    stratified_split (fun _ => []) KFOLD_SPLITS
        (construct_data (fun _ => []) ["f"] [] "d" "n").target =
      Except.error "cannot stratify a single-class label set" ∧
    classify_kfold (fun _ _ _ => ⟨fun _ => 0, fun _ => 0⟩) (fun _ => []) []
        (construct_data (fun _ => []) ["f"] [] "d" "n").target =
      Except.error "cannot stratify a single-class label set" :=
  ⟨by decide, by decide,
    classify_kfold_single_class_error (fun _ _ _ => ⟨fun _ => 0, fun _ => 0⟩)
      (fun _ => []) (fun _ => []) [] ["f"] ["f"] "d" "n" (by decide) (by decide)⟩

/-- C4: the count-based and TF-IDF vectorizations of any corpus have the same
shape: equally many rows, and the rows' lengths agree columnwise, because
both strategies discover their vocabulary with the same n-gram range and
analyzer configuration. -/
theorem vectorizer_shapes_agree (raw_data : List String) :
    (make_count_vectors raw_data).length = (make_tfidf_vectors raw_data).length ∧
    (make_count_vectors raw_data).map List.length =
      (make_tfidf_vectors raw_data).map List.length := by
  constructor
  · simp [make_count_vectors, make_tfidf_vectors, count_fit_transform, tfidf_fit_transform]
  · simp only [make_count_vectors, make_tfidf_vectors, count_fit_transform,
      tfidf_fit_transform, List.map_map]
    apply List.map_congr_left
    intro a _
    simp

/-- C5: when stratification succeeds, `classify_kfold` returns the evaluation
whose `cv` is the arithmetic mean of the per-fold accuracies, whose `roc` is
the arithmetic mean of the per-fold ROC-AUC scores, and whose precision,
recall and F-score fields are the per-fold sequences in fold order,
unaveraged. -/
theorem classify_kfold_aggregation (fit : FitFn) (mk_folds : List Nat → List Fold)
    (x : List (List ℚ)) (y : List Nat) (folds : List Fold)
    (hok : stratified_split mk_folds KFOLD_SPLITS y = Except.ok folds) :
    classify_kfold fit mk_folds x y = Except.ok
      { precision := folds.map (fun f => (fold_eval fit x y f).precision),
        «recall» := folds.map (fun f => (fold_eval fit x y f).«recall»),
        fscore := folds.map (fun f => (fold_eval fit x y f).fscore),
        cv := np_mean (folds.map (fun f => (fold_eval fit x y f).cv)),
        roc := np_mean (folds.map (fun f => (fold_eval fit x y f).roc)) } := by
  simp only [classify_kfold, hok, classify_loop_eq]

/-- C5 witness: ten samples of each class and a one-fold assignment. -/
theorem classify_kfold_aggregation_witness :
    stratified_split (fun _ => [(([0], [1]) : Fold)]) KFOLD_SPLITS
        (List.replicate 10 0 ++ List.replicate 10 1) =
      Except.ok [(([0], [1]) : Fold)] ∧
    classify_kfold (fun _ _ _ => ⟨fun _ => 0, fun _ => 1 / 2⟩)
        (fun _ => [(([0], [1]) : Fold)]) []
        (List.replicate 10 0 ++ List.replicate 10 1) =
      Except.ok
        { precision := [(([0], [1]) : Fold)].map (fun f =>
            (fold_eval (fun _ _ _ => ⟨fun _ => 0, fun _ => 1 / 2⟩) []
              (List.replicate 10 0 ++ List.replicate 10 1) f).precision),
          «recall» := [(([0], [1]) : Fold)].map (fun f =>
            (fold_eval (fun _ _ _ => ⟨fun _ => 0, fun _ => 1 / 2⟩) []
              (List.replicate 10 0 ++ List.replicate 10 1) f).«recall»),
          fscore := [(([0], [1]) : Fold)].map (fun f =>
            (fold_eval (fun _ _ _ => ⟨fun _ => 0, fun _ => 1 / 2⟩) []
              (List.replicate 10 0 ++ List.replicate 10 1) f).fscore),
          cv := np_mean ([(([0], [1]) : Fold)].map (fun f =>
            (fold_eval (fun _ _ _ => ⟨fun _ => 0, fun _ => 1 / 2⟩) []
              (List.replicate 10 0 ++ List.replicate 10 1) f).cv)),
          roc := np_mean ([(([0], [1]) : Fold)].map (fun f =>
            (fold_eval (fun _ _ _ => ⟨fun _ => 0, fun _ => 1 / 2⟩) []
              (List.replicate 10 0 ++ List.replicate 10 1) f).roc)) } :=
  ⟨by rfl, classify_kfold_aggregation _ _ _ _ _ (by rfl)⟩

/-- C7: every fold's model is a logistic regression classifier constructed
with L1 regularization (`penalty = PENALTY = "l1"`) and class-balanced
weighting, fitted on that fold's training subset. -/
theorem train_lr_model_configuration (fit : FitFn) (x : List (List ℚ))
    (y : List Nat) (f : Fold) :
    (train_lr_model fit (select x f.1) (select y f.1)).config.penalty = "l1" ∧
    (train_lr_model fit (select x f.1) (select y f.1)).config.penalty = PENALTY ∧
    (train_lr_model fit (select x f.1) (select y f.1)).config.class_weight =
      "balanced" ∧
    fold_eval fit x y f =
      evaluate (train_lr_model fit (select x f.1) (select y f.1)) (select x f.2)
        (select y f.2) :=
  ⟨rfl, rfl, rfl, rfl⟩

/-- C8: with the fold assignment fixed (the two runs' stratified splits
agree), two runs of training and evaluation over the same feature matrix and
labels return identical evaluations — the split oracle, the model of the
library's unseeded shuffle, influences the metrics only through the fold
assignment. -/
theorem classify_kfold_fold_assignment_determines (fit : FitFn)
    (x : List (List ℚ)) (y : List Nat) (mk1 mk2 : List Nat → List Fold)
    (hsame : stratified_split mk1 KFOLD_SPLITS y =
      stratified_split mk2 KFOLD_SPLITS y) :
    classify_kfold fit mk1 x y = classify_kfold fit mk2 x y := by
  simp only [classify_kfold, hsame]

/-- C8 witness: two syntactically different split oracles that produce the
same fold assignment on a 20-sample label vector. -/
theorem classify_kfold_fold_assignment_determines_witness :
    stratified_split (fun _ => [(([0], [1]) : Fold)]) KFOLD_SPLITS
        (List.replicate 10 0 ++ List.replicate 10 1) =
      stratified_split
        (fun l => if l.length = 20 then [(([0], [1]) : Fold)] else []) KFOLD_SPLITS
        (List.replicate 10 0 ++ List.replicate 10 1) ∧
    classify_kfold (fun _ _ _ => ⟨fun _ => 0, fun _ => 1 / 2⟩)
        (fun _ => [(([0], [1]) : Fold)]) []
        (List.replicate 10 0 ++ List.replicate 10 1) =
      classify_kfold (fun _ _ _ => ⟨fun _ => 0, fun _ => 1 / 2⟩)
        (fun l => if l.length = 20 then [(([0], [1]) : Fold)] else []) []
        (List.replicate 10 0 ++ List.replicate 10 1) :=
  ⟨by rfl, classify_kfold_fold_assignment_determines _ _ _ _ _ (by rfl)⟩

end LogRegClassifier
